import Mathlib

/-!
Verification development for the x402 payment middleware, proof codec and
payment-request models of nirholas/universal-crypto-mcp.

Sources embedded here:
  - src/x402/python/legacy/src/x402/encoding.py (safe_base64_encode/decode)
  - src/packages/prediction-api/app/middleware/x402.py (paywall wrapper,
    proof validator, payment-request generator, chain/token tables)
  - src/packages/prediction-api/app/main.py (payment_required_handler)
  - src/packages/prediction-api/app/config.py (Settings defaults)

Python strings are modelled by their UTF-8 byte sequences (List Nat, each
element a byte); Python float amounts are modelled as exact rationals (the
pricing literals are short decimal fractions); fallible stdlib calls are
modelled in Except.
-/

namespace UCM

/-- Exceptions that the embedded code can let escape or that the spec's error
taxonomy names. valueError models the plain ValueError that
base64.b64decode raises for a str argument containing non-ASCII characters
(its _bytes_from_decode_data step); binasciiError models binascii.Error
raised by base64.b64decode for bad padding; unicodeDecodeError models
UnicodeDecodeError raised by bytes.decode("utf-8"). decodeError models the
spec taxonomy's dedicated DecodeError outcome; the repository defines no such
class and no handler that could produce it. -/
inductive PyExc where
  | valueError
  | binasciiError
  | unicodeDecodeError
  | decodeError
deriving DecidableEq

/-! ## Base64 alphabet (as used by base64.b64encode / b64decode) -/

/-- The standard base64 alphabet: 6-bit value to ASCII code. -/
def b64Char (n : Nat) : Nat :=
  if n < 26 then 65 + n
  else if n < 52 then 97 + (n - 26)
  else if n < 62 then 48 + (n - 52)
  else if n = 62 then 43
  else 47

/-- ASCII code to 6-bit value, none for characters outside the alphabet. -/
def b64Index (c : Nat) : Option Nat :=
  if 65 ≤ c ∧ c ≤ 90 then some (c - 65)
  else if 97 ≤ c ∧ c ≤ 122 then some (26 + (c - 97))
  else if 48 ≤ c ∧ c ≤ 57 then some (52 + (c - 48))
  else if c = 43 then some 62
  else if c = 47 then some 63
  else none

/-- A character that survives Python's default (validate=False) discarding
step in base64.b64decode: alphabet characters and the padding '=' (61). -/
def isB64OrPad (c : Nat) : Bool :=
  (b64Index c).isSome || c == 61

theorem b64Index_b64Char (n : Nat) (h : n < 64) : b64Index (b64Char n) = some n := by
  have hfin : ∀ m : Fin 64, b64Index (b64Char m.val) = some m.val := by decide
  exact hfin ⟨n, h⟩

theorem b64Char_ne_pad (n : Nat) (h : n < 64) : (b64Char n == 61) = false := by
  have hfin : ∀ m : Fin 64, (b64Char m.val == 61) = false := by decide
  exact hfin ⟨n, h⟩

theorem isB64OrPad_b64Char (n : Nat) (h : n < 64) : isB64OrPad (b64Char n) = true := by
  unfold isB64OrPad
  rw [b64Index_b64Char n h]
  rfl

/-! ## base64.b64encode / base64.b64decode on byte lists -/

/-- base64.b64encode: bytes to the ASCII codes of the base64 string,
three input bytes per four output characters, '='-padded. -/
def b64encode : List Nat → List Nat
  | [] => []
  | [b1] => [b64Char (b1 / 4), b64Char (b1 % 4 * 16), 61, 61]
  | [b1, b2] =>
      [b64Char (b1 / 4), b64Char (b1 % 4 * 16 + b2 / 16), b64Char (b2 % 16 * 4), 61]
  | b1 :: b2 :: b3 :: rest =>
      b64Char (b1 / 4) :: b64Char (b1 % 4 * 16 + b2 / 16) ::
      b64Char (b2 % 16 * 4 + b3 / 64) :: b64Char (b3 % 64) :: b64encode rest

/-- Decoding of the character stream after discarding and the length % 4
check: quads of alphabet characters, with '=' padding only at the end.
Returns none where binascii raises. -/
def b64decodeBody : List Nat → Option (List Nat)
  | [] => some []
  | c1 :: c2 :: c3 :: c4 :: rest =>
    match b64Index c1, b64Index c2 with
    | some v1, some v2 =>
      if c3 == 61 && c4 == 61 && rest.isEmpty then
        some [v1 * 4 + v2 / 16]
      else
        match b64Index c3 with
        | some v3 =>
          if c4 == 61 && rest.isEmpty then
            some [v1 * 4 + v2 / 16, v2 % 16 * 16 + v3 / 4]
          else
            match b64Index c4 with
            | some v4 =>
              match b64decodeBody rest with
              | some tl =>
                  some ((v1 * 4 + v2 / 16) :: (v2 % 16 * 16 + v3 / 4) :: (v3 % 4 * 64 + v4) :: tl)
              | none => none
            | none => none
        | none => none
    | _, _ => none
  | _ => none

/-- base64.b64decode on a str argument with default validate=False: the
string is first ASCII-encoded (a plain ValueError escapes when it contains
any non-ASCII character, i.e. any byte at or above 128 in our byte-sequence
model); then characters outside the alphabet are discarded, the remaining
count must be a multiple of four (binascii.Error "Incorrect padding"
otherwise) and the quads are decoded with '=' padding allowed only at the
end (binascii.Error otherwise). Modelled on inputs whose padding, when
present, is canonical; the inputs this development evaluates are in that
domain. -/
def b64decode (input : List Nat) : Except PyExc (List Nat) :=
  if input.all (fun b => b < 128) then
    if (input.filter isB64OrPad).length % 4 = 0 then
      match b64decodeBody (input.filter isB64OrPad) with
      | some bs => .ok bs
      | none => .error .binasciiError
    else .error .binasciiError
  else .error .valueError

/-- The only exceptions base64.b64decode raises are ValueError (non-ASCII
str input) and binascii.Error (bad padding). -/
theorem b64decode_error_cases (input : List Nat) (e : PyExc)
    (h : b64decode input = .error e) : e = .valueError ∨ e = .binasciiError := by
  unfold b64decode at h
  split at h
  · split at h
    · split at h
      · exact absurd h (by simp)
      · right
        injection h with h2
        exact h2.symm
    · right
      injection h with h2
      exact h2.symm
  · left
    injection h with h2
    exact h2.symm

theorem b64Char_lt_128 (n : Nat) (h : n < 64) : b64Char n < 128 := by
  have hfin : ∀ m : Fin 64, b64Char m.val < 128 := by decide
  exact hfin ⟨n, h⟩

theorem isB64OrPad_pad : isB64OrPad 61 = true := by decide

theorem b64encode_filter (bs : List Nat) (h : ∀ b ∈ bs, b < 256) :
    (b64encode bs).filter isB64OrPad = b64encode bs := by
  induction bs using b64encode.induct with
  | case1 => rfl
  | case2 b1 =>
    have hb1 : b1 < 256 := h b1 (by simp)
    have e1 := isB64OrPad_b64Char (b1 / 4) (by omega)
    have e2 := isB64OrPad_b64Char (b1 % 4 * 16) (by omega)
    simp [b64encode, List.filter, e1, e2, isB64OrPad_pad]
  | case3 b1 b2 =>
    have hb1 : b1 < 256 := h b1 (by simp)
    have hb2 : b2 < 256 := h b2 (by simp)
    have e1 := isB64OrPad_b64Char (b1 / 4) (by omega)
    have e2 := isB64OrPad_b64Char (b1 % 4 * 16 + b2 / 16) (by omega)
    have e3 := isB64OrPad_b64Char (b2 % 16 * 4) (by omega)
    simp [b64encode, List.filter, e1, e2, e3, isB64OrPad_pad]
  | case4 b1 b2 b3 rest ih =>
    have hb1 : b1 < 256 := h b1 (by simp)
    have hb2 : b2 < 256 := h b2 (by simp)
    have hb3 : b3 < 256 := h b3 (by simp)
    have e1 := isB64OrPad_b64Char (b1 / 4) (by omega)
    have e2 := isB64OrPad_b64Char (b1 % 4 * 16 + b2 / 16) (by omega)
    have e3 := isB64OrPad_b64Char (b2 % 16 * 4 + b3 / 64) (by omega)
    have e4 := isB64OrPad_b64Char (b3 % 64) (by omega)
    have ih2 := ih (fun b hb => h b (by simp [hb]))
    simp [b64encode, List.filter, e1, e2, e3, e4] at ih2 ⊢
    exact ih2

theorem b64encode_length_mod4 (bs : List Nat) : (b64encode bs).length % 4 = 0 := by
  induction bs using b64encode.induct with
  | case1 => rfl
  | case2 b1 => simp [b64encode]
  | case3 b1 b2 => simp [b64encode]
  | case4 b1 b2 b3 rest ih =>
    simp only [b64encode, List.length_cons]
    omega

theorem b64decodeBody_b64encode (bs : List Nat) (h : ∀ b ∈ bs, b < 256) :
    b64decodeBody (b64encode bs) = some bs := by
  induction bs using b64encode.induct with
  | case1 => rfl
  | case2 b1 =>
    have hb1 : b1 < 256 := h b1 (by simp)
    have e1 := b64Index_b64Char (b1 / 4) (by omega)
    have e2 := b64Index_b64Char (b1 % 4 * 16) (by omega)
    simp [b64encode, b64decodeBody, e1, e2]
    omega
  | case3 b1 b2 =>
    have hb1 : b1 < 256 := h b1 (by simp)
    have hb2 : b2 < 256 := h b2 (by simp)
    have e1 := b64Index_b64Char (b1 / 4) (by omega)
    have e2 := b64Index_b64Char (b1 % 4 * 16 + b2 / 16) (by omega)
    have e3 := b64Index_b64Char (b2 % 16 * 4) (by omega)
    have n3 := b64Char_ne_pad (b2 % 16 * 4) (by omega)
    simp [b64encode, b64decodeBody, e1, e2, e3, n3]
    omega
  | case4 b1 b2 b3 rest ih =>
    have hb1 : b1 < 256 := h b1 (by simp)
    have hb2 : b2 < 256 := h b2 (by simp)
    have hb3 : b3 < 256 := h b3 (by simp)
    have e1 := b64Index_b64Char (b1 / 4) (by omega)
    have e2 := b64Index_b64Char (b1 % 4 * 16 + b2 / 16) (by omega)
    have e3 := b64Index_b64Char (b2 % 16 * 4 + b3 / 64) (by omega)
    have e4 := b64Index_b64Char (b3 % 64) (by omega)
    have n3 := b64Char_ne_pad (b2 % 16 * 4 + b3 / 64) (by omega)
    have n4 := b64Char_ne_pad (b3 % 64) (by omega)
    have ih2 := ih (fun b hb => h b (by simp [hb]))
    simp [b64encode, b64decodeBody, e1, e2, e3, e4, n3, n4, ih2]
    omega

theorem b64encode_ascii (bs : List Nat) (h : ∀ b ∈ bs, b < 256) :
    (b64encode bs).all (fun b => b < 128) = true := by
  induction bs using b64encode.induct with
  | case1 => rfl
  | case2 b1 =>
    have hb1 : b1 < 256 := h b1 (by simp)
    have e1 := b64Char_lt_128 (b1 / 4) (by omega)
    have e2 := b64Char_lt_128 (b1 % 4 * 16) (by omega)
    simp [b64encode, List.all_cons, e1, e2]
  | case3 b1 b2 =>
    have hb1 : b1 < 256 := h b1 (by simp)
    have hb2 : b2 < 256 := h b2 (by simp)
    have e1 := b64Char_lt_128 (b1 / 4) (by omega)
    have e2 := b64Char_lt_128 (b1 % 4 * 16 + b2 / 16) (by omega)
    have e3 := b64Char_lt_128 (b2 % 16 * 4) (by omega)
    simp [b64encode, List.all_cons, e1, e2, e3]
  | case4 b1 b2 b3 rest ih =>
    have hb1 : b1 < 256 := h b1 (by simp)
    have hb2 : b2 < 256 := h b2 (by simp)
    have hb3 : b3 < 256 := h b3 (by simp)
    have e1 := b64Char_lt_128 (b1 / 4) (by omega)
    have e2 := b64Char_lt_128 (b1 % 4 * 16 + b2 / 16) (by omega)
    have e3 := b64Char_lt_128 (b2 % 16 * 4 + b3 / 64) (by omega)
    have e4 := b64Char_lt_128 (b3 % 64) (by omega)
    have ih2 := ih (fun b hb => h b (by simp [hb]))
    simp [b64encode, List.all_cons, e1, e2, e3, e4] at ih2 ⊢
    exact ih2

theorem b64decode_b64encode (bs : List Nat) (h : ∀ b ∈ bs, b < 256) :
    b64decode (b64encode bs) = .ok bs := by
  unfold b64decode
  rw [b64encode_filter bs h]
  simp [b64encode_ascii bs h, b64encode_length_mod4 bs, b64decodeBody_b64encode bs h]

/-! ## UTF-8 validity (bytes.decode("utf-8") succeeds exactly on these) -/

/-- A UTF-8 continuation byte. -/
def isCont (b : Nat) : Bool := 128 ≤ b && b ≤ 191

/-- Validity of a byte list as strict UTF-8 (what bytes.decode("utf-8")
accepts: no overlong forms, no surrogates, maximum U+10FFFF). A string's
UTF-8 byte sequence always satisfies this predicate. -/
def utf8Valid : List Nat → Bool
  | [] => true
  | b :: rest =>
    if b ≤ 127 then utf8Valid rest
    else if 194 ≤ b && b ≤ 223 then
      match rest with
      | c1 :: r => isCont c1 && utf8Valid r
      | [] => false
    else if b == 224 then
      match rest with
      | c1 :: c2 :: r => (160 ≤ c1 && c1 ≤ 191) && isCont c2 && utf8Valid r
      | _ => false
    else if 225 ≤ b && b ≤ 236 then
      match rest with
      | c1 :: c2 :: r => isCont c1 && isCont c2 && utf8Valid r
      | _ => false
    else if b == 237 then
      match rest with
      | c1 :: c2 :: r => (128 ≤ c1 && c1 ≤ 159) && isCont c2 && utf8Valid r
      | _ => false
    else if 238 ≤ b && b ≤ 239 then
      match rest with
      | c1 :: c2 :: r => isCont c1 && isCont c2 && utf8Valid r
      | _ => false
    else if b == 240 then
      match rest with
      | c1 :: c2 :: c3 :: r => (144 ≤ c1 && c1 ≤ 191) && isCont c2 && isCont c3 && utf8Valid r
      | _ => false
    else if 241 ≤ b && b ≤ 243 then
      match rest with
      | c1 :: c2 :: c3 :: r => isCont c1 && isCont c2 && isCont c3 && utf8Valid r
      | _ => false
    else if b == 244 then
      match rest with
      | c1 :: c2 :: c3 :: r => (128 ≤ c1 && c1 ≤ 143) && isCont c2 && isCont c3 && utf8Valid r
      | _ => false
    else false

/-! ## safe_base64_encode / safe_base64_decode
(src/x402/python/legacy/src/x402/encoding.py) -/

/-- safe_base64_encode: a str input is first UTF-8 encoded (the identity
under our byte-sequence modelling of strings; the bytes branch of the
Union[str, bytes] argument is the same list), then base64-encoded and the
resulting ASCII string returned as its character codes. -/
def safe_base64_encode (data : List Nat) : List Nat := b64encode data

/-- safe_base64_decode: base64.b64decode then bytes.decode("utf-8"),
with no exception handling of its own, so a ValueError or binascii.Error
from the former or a UnicodeDecodeError from the latter escapes uncaught.
The decoded string is returned as its UTF-8 byte sequence. -/
def safe_base64_decode (data : List Nat) : Except PyExc (List Nat) :=
  match b64decode data with
  | .error e => .error e
  | .ok bs => if utf8Valid bs then .ok bs else .error .unicodeDecodeError

/-! ## Application settings (src/packages/prediction-api/app/config.py) -/

/-- The x402-relevant fields of the Settings class. -/
structure Settings where
  x402_enabled : Bool
  x402_recipient_address : String
  x402_network : String
  x402_token : String
  debug : Bool
deriving DecidableEq

/-- The defaults declared in config.py (environment overrides absent). -/
def defaultSettings : Settings :=
  { x402_enabled := true
    x402_recipient_address := "0x0000000000000000000000000000000000000000"
    x402_network := "base"
    x402_token := "USDC"
    debug := false }

/-! ## x402 middleware (src/packages/prediction-api/app/middleware/x402.py) -/

/-- Python `v or default` on an optional string: None and "" are falsy and
fall back to the default. -/
def orDefault (v : Option String) (d : String) : String :=
  match v with
  | some s => if s = "" then d else s
  | none => d

/-- The X402PaymentRequired exception value. amount is a Python float in the
source, modelled as an exact rational in whole currency units. -/
structure X402PaymentRequired where
  amount : ℚ
  description : String
  network : String
  recipient : String
  token : String
deriving DecidableEq

/-- The X402PaymentRequired constructor: optional network/recipient/token fall
back to the deployment settings via Python `or`. -/
def mkX402PaymentRequired (s : Settings) (amount : ℚ) (description : String)
    (network recipient token : Option String) : X402PaymentRequired :=
  { amount := amount
    description := description
    network := orDefault network s.x402_network
    recipient := orDefault recipient s.x402_recipient_address
    token := orDefault token s.x402_token }

/-- Whether the first list is a prefix of the second. -/
def listPrefixEq : List Char → List Char → Bool
  | [], _ => true
  | _ :: _, [] => false
  | a :: as, b :: bs => a == b && listPrefixEq as bs

/-- str.startswith, computed on the character data. -/
def pyStartsWith (s pre : String) : Bool := listPrefixEq pre.data s.data

/-- The try-block body of _validate_payment_proof, viewed as a
possibly-raising computation: every operation it performs (startswith, len,
integer comparison) is total on str, so no error path exists. -/
def validateTryBody (proof : String) : Except PyExc Bool :=
  .ok (if pyStartsWith proof "0x" && proof.length == 66 then true
       else if proof.length > 20 then true
       else false)

/-- _validate_payment_proof. The expected_amount parameter is accepted but
never read by the source (the amount check is left as a TODO comment there).
The except-Exception clause maps any escaping exception to False. -/
def validate_payment_proof (s : Settings) (proof : String)
    (expected_amount : ℚ) : Bool :=
  if proof = "" then false
  else if s.debug || !s.x402_enabled then true
  else
    match validateTryBody proof with
    | .ok b => b
    | .error _ => false

/-- _validate_payment_proof as a possibly-raising computation: datum for the
claim that the validator is total. The catch-all handler leaves .ok as the
only reachable constructor. -/
def validatePaymentProofE (s : Settings) (proof : String)
    (expected_amount : ℚ) : Except PyExc Bool :=
  if proof = "" then .ok false
  else if s.debug || !s.x402_enabled then .ok true
  else
    match validateTryBody proof with
    | .ok b => .ok b
    | .error _ => .ok false

/-- Outcome of one request through the x402_paywall wrapper: the raised
X402PaymentRequired exception, the HTTPException(402) for an invalid proof,
or the protected operation's result (the operation is invoked exactly in the
result case). -/
inductive GateOutcome (α : Type) where
  | paymentRequired (exc : X402PaymentRequired)
  | httpError (status : Nat) (detail : String)
  | result (a : α)
deriving DecidableEq

/-- The async wrapper produced by the x402_paywall decorator. header is the
value of the X-402-Payment header (its lookup in the source is repeated in
both spellings and case-insensitive at the framework level; a missing Request
object behaves like a missing header). func stands for the protected
operation, whose invocation is marked by the result constructor. -/
def wrapper {α : Type} (s : Settings) (amount : ℚ) (description : String)
    (network recipient token : Option String)
    (header : Option String) (func : α) : GateOutcome α :=
  if !s.x402_enabled then .result func
  else
    let payment_proof : Option String :=
      match header with
      | some p => if p = "" then none else some p
      | none => none
    match payment_proof with
    | none =>
        .paymentRequired (mkX402PaymentRequired s amount description network recipient token)
    | some proof =>
        if !(validate_payment_proof s proof amount) then
          .httpError 402 "Invalid payment proof"
        else .result func

/-- Number of times the protected operation was delivered across a list of
request outcomes. -/
def deliveries {α : Type} (rs : List (GateOutcome α)) : Nat :=
  rs.countP fun r =>
    match r with
    | .result _ => true
    | _ => false

/-! ## 402 response body (src/packages/prediction-api/app/main.py and
generate_payment_request in the middleware) -/

/-- One entry of the accepts array of a 402 body. -/
structure AcceptsEntry where
  scheme : String
  network : String
  maxAmountRequired : String
  resource : String
  description : String
  mimeType : String
  payTo : String
  maxTimeoutSeconds : Nat
  asset : String
deriving DecidableEq

/-- The JSON content built by payment_required_handler. -/
structure PaymentRequiredContent where
  error : String
  x402_version : Nat
  accepts : List AcceptsEntry
deriving DecidableEq

/-- The JSONResponse returned by payment_required_handler: status code,
content and extra headers. -/
structure JSONResponseModel where
  status_code : Nat
  content : PaymentRequiredContent
  headers : List (String × String)
deriving DecidableEq

/-- Python str() on the source's float amounts. The pricing literals (0.01,
0.02, 0.05, 0.10, 0.50, 10.00) are floats whose repr — what str returns — is
the shortest decimal literal; modelled for nonnegative rationals whose
denominator divides 10^6: integer part, then the fractional digits with
trailing zeros trimmed, or ".0" when the value is integral. -/
def pyFloatStr (q : ℚ) : String :=
  let n := q.num.toNat
  let d := q.den
  let ip := n / d
  let frac6 := n * 1000000 / d % 1000000
  if frac6 = 0 then toString ip ++ ".0"
  else
    let ds := Nat.toDigits 10 frac6
    let padded := List.replicate (6 - ds.length) '0' ++ ds
    let trimmed := (padded.reverse.dropWhile (fun c => c = '0')).reverse
    toString ip ++ "." ++ String.mk trimmed

/-- payment_required_handler from app/main.py: the JSONResponse produced for
a raised X402PaymentRequired. str(exc.amount) is modelled by pyFloatStr. -/
def payment_required_handler (requestUrl : String)
    (exc : X402PaymentRequired) : JSONResponseModel :=
  { status_code := 402
    content :=
      { error := "Payment Required"
        x402_version := 1
        accepts :=
          [{ scheme := "exact"
             network := exc.network
             maxAmountRequired := pyFloatStr exc.amount
             resource := requestUrl
             description := exc.description
             mimeType := "application/json"
             payTo := exc.recipient
             maxTimeoutSeconds := 300
             asset := exc.token }] }
    headers := [("X-402-Version", "1"), ("X-402-Price", pyFloatStr exc.amount)] }

/-- _get_chain_id: dict lookup with default 8453. -/
def get_chain_id (network : String) : Nat :=
  if network = "base" then 8453
  else if network = "base-sepolia" then 84532
  else if network = "ethereum" then 1
  else if network = "arbitrum" then 42161
  else if network = "optimism" then 10
  else if network = "polygon" then 137
  else 8453

/-- _get_token_address: USDC contract per network read from
settings.x402_network, defaulting to the Base entry. -/
def get_token_address (s : Settings) : String :=
  if s.x402_network = "base" then "0x833589fCD6eDb6E08f4c7C32D4f71b54bdA02913"
  else if s.x402_network = "ethereum" then "0xA0b86991c6218b36c1d19D4a2e9Eb0cE3606eB48"
  else if s.x402_network = "arbitrum" then "0xaf88d065e77c8cC2239327C5EDb3A432268e5831"
  else if s.x402_network = "optimism" then "0x0b2C639c533813f4Aa9D7837CAf62653d097Ff85"
  else if s.x402_network = "polygon" then "0x3c499c542cEF5E3811e1192ce70d8cC03d5c3359"
  else "0x833589fCD6eDb6E08f4c7C32D4f71b54bdA02913"

/-- Python int() truncation toward zero on a rational. -/
def pyInt (q : ℚ) : ℤ := q.num.tdiv q.den

/-- The payment-request dict built by generate_payment_request. -/
structure PaymentRequestObject where
  x402_version : Nat
  accepts : List AcceptsEntry
deriving DecidableEq

/-- generate_payment_request from the middleware: the x402 payment request
object whose docstring says it is what gets returned in the 402 response
body; maxAmountRequired is str(int(amount * 1_000_000)). The application
never calls this function. -/
def generate_payment_request (s : Settings) (amount : ℚ)
    (resource description : String) (validity_seconds : Nat) : PaymentRequestObject :=
  { x402_version := 1
    accepts :=
      [{ scheme := "exact"
         network := "eip155:" ++ toString (get_chain_id s.x402_network)
         maxAmountRequired := toString (pyInt (amount * 1000000))
         resource := resource
         description := description
         mimeType := "application/json"
         payTo := s.x402_recipient_address
         maxTimeoutSeconds := validity_seconds
         asset := "eip155:" ++ toString (get_chain_id s.x402_network) ++ "/erc20:"
                    ++ get_token_address s }] }

/-! ## Shared evaluation lemmas -/

/-- str() of the float 0.01, the /predict/direction price. -/
theorem pyFloatStr_direction : pyFloatStr (1 / 100) = "0.01" := by
  have hn : ((1 : ℚ) / 100).num = 1 := by norm_num
  have hd : ((1 : ℚ) / 100).den = 100 := by norm_num
  simp only [pyFloatStr, hn, hd]
  decide

/-- str(int(0.01 * 1_000_000)), the smallest-unit rendering of that price. -/
theorem pyIntStr_direction : toString (pyInt ((1 : ℚ) / 100 * 1000000)) = "10000" := by
  have h1 : ((1 : ℚ) / 100 * 1000000) = 10000 := by norm_num
  rw [h1]
  simp only [pyInt, Rat.num_ofNat, Rat.den_ofNat]
  decide

/-- The proof header the repository's own tests send: 0x followed by 64 hex
characters. -/
def testProofHeader : String := "0x" ++ String.mk (List.replicate 64 'a')

/-! ## Claim theorems -/

/-- C1: the gate holds no verification ledger and tracks no nonce, so a
second request presenting the same payment proof after a successful first
delivery invokes the protected operation again: at the failing input (the
test suite's 0x..64-hex proof, default settings with gating enabled), each
of two identical requests reaches the result state and the operation is
delivered twice, not once. -/
theorem c1_replay_delivers_twice :
    wrapper defaultSettings (1 / 100) "Price direction prediction" none none none
        (some testProofHeader) (37 : Nat) = .result 37
    ∧ deliveries
        [wrapper defaultSettings (1 / 100) "Price direction prediction" none none none
            (some testProofHeader) (37 : Nat),
         wrapper defaultSettings (1 / 100) "Price direction prediction" none none none
            (some testProofHeader) (37 : Nat)] = 2 :=
  ⟨rfl, rfl⟩

/-- C2: _validate_payment_proof never reads its expected_amount parameter,
so it cannot return False for a proof that fails to cover the requirement:
the validator is constant in the amount, and at the failing input (a
66-character 0x string carrying no amount at all, expected amount 0.01,
gating enabled, debug off) it returns True. -/
theorem c2_validator_ignores_expected_amount :
    (∀ (s : Settings) (p : String) (a b : ℚ),
       validate_payment_proof s p a = validate_payment_proof s p b)
    ∧ validate_payment_proof defaultSettings testProofHeader (1 / 100) = true :=
  ⟨fun _ _ _ _ => rfl, rfl⟩

/-- C3: round-trip law of the proof codec: for every string p (modelled by
its UTF-8 byte sequence, hence bytes below 256 forming a valid UTF-8
sequence), safe_base64_decode of safe_base64_encode of p returns p. -/
theorem c3_encode_decode_roundtrip (p : List Nat) (hb : ∀ b ∈ p, b < 256)
    (hu : utf8Valid p = true) :
    safe_base64_decode (safe_base64_encode p) = .ok p := by
  unfold safe_base64_decode safe_base64_encode
  rw [b64decode_b64encode p hb]
  simp [hu]

/-- C3 witness: the round-trip evaluated on the concrete string "hi!". -/
theorem c3_encode_decode_roundtrip_witness :
    (∀ b ∈ ([104, 105, 33] : List Nat), b < 256)
    ∧ utf8Valid [104, 105, 33] = true
    ∧ safe_base64_decode (safe_base64_encode [104, 105, 33]) = .ok [104, 105, 33] :=
  ⟨by decide, by decide, c3_encode_decode_roundtrip [104, 105, 33] (by decide) (by decide)⟩

/-- C4 counterexample: the claim fails as stated: on the malformed input "A"
(one base64 character, invalid padding), safe_base64_decode does not produce
the dedicated DecodeError outcome — it lets the stdlib binascii.Error escape
uncaught. -/
theorem c4_counterexample_generic_error :
    safe_base64_decode [65] = .error .binasciiError
    ∧ PyExc.binasciiError ≠ PyExc.decodeError :=
  ⟨rfl, by decide⟩

/-- C4 amended: whenever safe_base64_decode fails, the failure is an
escaping stdlib exception — ValueError for a non-ASCII input string,
binascii.Error for invalid base64 padding, or UnicodeDecodeError for decoded
bytes that are not valid UTF-8 — never the dedicated DecodeError outcome,
which the repository does not define. -/
theorem c4_errors_are_stdlib_exceptions (input : List Nat) (e : PyExc)
    (h : safe_base64_decode input = .error e) :
    e = .valueError ∨ e = .binasciiError ∨ e = .unicodeDecodeError := by
  unfold safe_base64_decode at h
  cases hb : b64decode input with
  | error e2 =>
      rw [hb] at h
      injection h with h2
      rw [← h2]
      rcases b64decode_error_cases input e2 hb with h3 | h3
      · left
        exact h3
      · right
        left
        exact h3
  | ok bs =>
      rw [hb] at h
      by_cases hu : utf8Valid bs = true
      · simp [hu] at h
      · simp [hu] at h
        right
        right
        exact h.symm

/-- C4 witness: the amended claim applied to the base64 encoding of the
invalid UTF-8 byte 0xFF, whose decode fails with UnicodeDecodeError. -/
theorem c4_errors_are_stdlib_exceptions_witness :
    PyExc.unicodeDecodeError = .valueError ∨ PyExc.unicodeDecodeError = .binasciiError
      ∨ PyExc.unicodeDecodeError = .unicodeDecodeError :=
  c4_errors_are_stdlib_exceptions (safe_base64_encode [255]) .unicodeDecodeError rfl

/-- C5: with gating enabled, a request carrying no payment proof header makes
the gate raise X402PaymentRequired built from the route's requirement, the
handler answers with status 402, and the protected operation is not
delivered. -/
theorem c5_no_proof_emits_402 {α : Type} (s : Settings) (h : s.x402_enabled = true)
    (amount : ℚ) (d url : String) (net rec tok : Option String) (func : α) :
    wrapper s amount d net rec tok none func
        = .paymentRequired (mkX402PaymentRequired s amount d net rec tok)
    ∧ (payment_required_handler url (mkX402PaymentRequired s amount d net rec tok)).status_code
        = 402
    ∧ deliveries [wrapper s amount d net rec tok none func] = 0 := by
  have h1 : wrapper s amount d net rec tok none func
      = .paymentRequired (mkX402PaymentRequired s amount d net rec tok) := by
    simp [wrapper, h]
  refine ⟨h1, rfl, ?_⟩
  rw [h1]
  rfl

/-- C5 witness: the default deployment (gating enabled) on the
/predict/direction route with no header. -/
theorem c5_no_proof_emits_402_witness :
    defaultSettings.x402_enabled = true
    ∧ (wrapper defaultSettings (1 / 100) "Price direction prediction" none none none none
          (37 : Nat)
        = .paymentRequired (mkX402PaymentRequired defaultSettings (1 / 100)
            "Price direction prediction" none none none)
      ∧ (payment_required_handler "http://testserver/predict/direction"
          (mkX402PaymentRequired defaultSettings (1 / 100) "Price direction prediction"
            none none none)).status_code = 402
      ∧ deliveries [wrapper defaultSettings (1 / 100) "Price direction prediction"
          none none none none (37 : Nat)] = 0) :=
  ⟨rfl, c5_no_proof_emits_402 defaultSettings rfl (1 / 100) "Price direction prediction"
    "http://testserver/predict/direction" none none none 37⟩

set_option maxRecDepth 4000 in
/-- C6: at the failing input (no payment header, price 0.01, default
6-decimal USDC configuration) the actual 402 body built by
payment_required_handler carries maxAmountRequired "0.01" — str of the float
price — not the smallest-unit integer string "10000" that the claim states
and that generate_payment_request (which the application never calls, despite
its docstring) would produce. -/
theorem c6_handler_amount_not_smallest_unit :
    ((payment_required_handler "http://testserver/predict/direction"
        (mkX402PaymentRequired defaultSettings (1 / 100) "Price direction prediction"
          none none none)).content.accepts.map AcceptsEntry.maxAmountRequired) = ["0.01"]
    ∧ ((generate_payment_request defaultSettings (1 / 100)
        "http://testserver/predict/direction" "Price direction prediction"
        300).accepts.map AcceptsEntry.maxAmountRequired) = ["10000"]
    ∧ ("0.01" : String) ≠ "10000" := by
  refine ⟨?_, ?_, by decide⟩
  · dsimp only [payment_required_handler, mkX402PaymentRequired, orDefault, List.map]
    rw [pyFloatStr_direction]
  · dsimp only [generate_payment_request, List.map]
    rw [pyIntStr_direction]

/-- C7: with gating globally disabled the wrapper returns the protected
operation's result unchanged for every request, with or without a payment
header, before any header inspection or proof validation. -/
theorem c7_disabled_gate_invokes_directly {α : Type} (s : Settings)
    (h : s.x402_enabled = false) (amount : ℚ) (d : String)
    (net rec tok : Option String) (header : Option String) (func : α) :
    wrapper s amount d net rec tok header func = .result func := by
  simp [wrapper, h]

/-- C7 witness: gating disabled, a header present that is no valid proof, and
the operation's result still returned unchanged. -/
theorem c7_disabled_gate_invokes_directly_witness :
    ({ defaultSettings with x402_enabled := false } : Settings).x402_enabled = false
    ∧ wrapper { defaultSettings with x402_enabled := false } (1 / 100) "d"
        none none none (some "x") (37 : Nat) = .result 37 :=
  ⟨rfl, c7_disabled_gate_invokes_directly _ rfl (1 / 100) "d" none none none (some "x") 37⟩

/-- C8 counterexample: the claim fails as stated: the amount flowing through
the paywall interface into X402PaymentRequired for the /predict/direction
route is the float 0.01 in whole currency units — a value that is not an
integer, so the model does not represent the demanded amount as an integer
in the smallest asset unit. -/
theorem c8_counterexample_amount_fractional :
    (mkX402PaymentRequired defaultSettings (1 / 100) "Price direction prediction"
        none none none).amount = 1 / 100
    ∧ ¬ ∃ n : ℤ, ((1 : ℚ) / 100) = (n : ℚ) := by
  refine ⟨rfl, ?_⟩
  rintro ⟨n, hn⟩
  have hden : ((1 : ℚ) / 100).den = 100 := by norm_num
  rw [hn] at hden
  simp [Rat.den_intCast] at hden

/-- C8 amended: the amount in the X402PaymentRequired model and the
x402_paywall interface is a fractional number of whole currency units
(a Python float in the source); only generate_payment_request renders an
integer in the smallest asset unit, as the string of int(amount * 10^6). -/
theorem c8_amended_amount_is_float (s : Settings) (res d : String) :
    (mkX402PaymentRequired s (1 / 100) d none none none).amount = 1 / 100
    ∧ ((generate_payment_request s (1 / 100) res d 300).accepts.map
        AcceptsEntry.maxAmountRequired) = ["10000"] := by
  refine ⟨rfl, ?_⟩
  dsimp only [generate_payment_request, List.map]
  rw [pyIntStr_direction]

/-- C9: the structural check is total and never raises: viewed as a
possibly-raising computation, _validate_payment_proof always completes with
ok of the boolean the pure model returns, and an empty proof — the basic
structural mismatch — yields False. -/
theorem c9_validator_total_never_raises (s : Settings) (p : String) (a : ℚ) :
    validatePaymentProofE s p a = .ok (validate_payment_proof s p a)
    ∧ validate_payment_proof s "" a = false := by
  constructor
  · unfold validatePaymentProofE validate_payment_proof
    split_ifs <;> rfl
  · rfl

/-- C10: every network name outside the chain table falls back to Base:
chain id 8453, the Base USDC contract address, and a well-formed Base-chain
payment request. -/
theorem c10_unknown_network_base_fallback (s : Settings)
    (h : s.x402_network ∉
      (["base", "base-sepolia", "ethereum", "arbitrum", "optimism", "polygon"] : List String))
    (amount : ℚ) (res d : String) :
    get_chain_id s.x402_network = 8453
    ∧ get_token_address s = "0x833589fCD6eDb6E08f4c7C32D4f71b54bdA02913"
    ∧ ((generate_payment_request s amount res d 300).accepts.map AcceptsEntry.network)
        = ["eip155:8453"] := by
  simp only [List.mem_cons, List.not_mem_nil, or_false, not_or] at h
  obtain ⟨h1, h2, h3, h4, h5, h6⟩ := h
  have hc : get_chain_id s.x402_network = 8453 := by
    simp [get_chain_id, h1, h2, h3, h4, h5, h6]
  have ht : get_token_address s = "0x833589fCD6eDb6E08f4c7C32D4f71b54bdA02913" := by
    simp [get_token_address, h1, h3, h4, h5, h6]
  refine ⟨hc, ht, ?_⟩
  simp only [generate_payment_request, List.map_cons, List.map_nil, hc]
  decide

/-- C10 witness: the fallback evaluated at the misconfigured network name
"solana". -/
theorem c10_unknown_network_base_fallback_witness :
    (({ defaultSettings with x402_network := "solana" } : Settings).x402_network ∉
      (["base", "base-sepolia", "ethereum", "arbitrum", "optimism", "polygon"] : List String))
    ∧ (get_chain_id ({ defaultSettings with x402_network := "solana" } : Settings).x402_network
          = 8453
      ∧ get_token_address { defaultSettings with x402_network := "solana" }
          = "0x833589fCD6eDb6E08f4c7C32D4f71b54bdA02913"
      ∧ ((generate_payment_request { defaultSettings with x402_network := "solana" }
            (1 / 100) "res" "desc" 300).accepts.map AcceptsEntry.network)
          = ["eip155:8453"]) :=
  ⟨by decide, c10_unknown_network_base_fallback _ (by decide) (1 / 100) "res" "desc"⟩

end UCM
